import Mathlib

/-!
Verification of the plant-monitor decision engine
(`src/main/twai_rx_main.c` of capstone-plant-monitor).

The embedded controller runs a single loop: refresh thresholds, decode a
sensor frame, then `process_sensor_data` updates pump/light commands and
`update_hardware_actuators` writes them to hardware on change.  This file
shallowly embeds those routines: C machine integers become `Int`/`Nat`
with explicit wrapping where the C code compares through an unsigned
conversion, the `static` local variables of each C function become fields
of an explicit state record threaded through the Lean function, and the
HTTP fetch collaborator of `pull_adafruit_thresholds` is abstracted to its
outcome (connection error, empty body, or a partial record of parsed
fields), exactly the boundary at which the C code consumes it.
-/

namespace PlantMonitor

/-- `SensorData` struct (twai_rx_main.c lines 25-32).  `temperature` is a
C `float` that `process_sensor_data` never reads; it is carried as an
integer tenth-of-degree value (the CAN decoder divides a raw `int16_t`
by 10) so that the record stays total and executable. -/
structure SensorData where
  temperature : Int
  light_level : Nat
  humidity : Nat
  moisture : Nat
  water_level : Bool
  raw_id : Nat
  deriving Repr, DecidableEq

/-- `ThresholdData` struct (lines 34-39): four C `int` fields. -/
structure ThresholdData where
  light_intensity : Int
  moisture : Int
  temperature : Int
  on_off_toggle : Int
  deriving Repr, DecidableEq

/-- The state owned by `process_sensor_data`: the caller's two booleans
(`is_pump_active`, `is_light_active` in `app_main`) plus the three
function-static variables `pump_start_time`, `cooldown_start_time`,
`is_cooldown` (lines 99-101). -/
structure EngineState where
  pump_state : Bool
  light_state : Bool
  pump_start_time : Int
  cooldown_start_time : Int
  is_cooldown : Bool
  deriving Repr, DecidableEq

/-- 2^64, the modulus of C `unsigned long long` on the target. -/
def U64 : Int := 18446744073709551616

/-- Elapsed-time test as the C code performs it: `now - start` is
`int64_t` arithmetic and the comparison against a `ULL` literal converts
the difference to `unsigned long long`, i.e. reduces it modulo 2^64
(lines 127, 135, 292).  `Int.emod` with a positive modulus yields the
representative in `[0, 2^64)`, matching that conversion. -/
def uElapsed (now start : Int) : Int := (now - start) % U64

/-- `PUMP_COOLDOWN` from constants.h (testing definition, 1000000 us). -/
def PUMP_COOLDOWN : Int := 1000000

/-- The pump run duration, the literal `10000000ULL` at line 127. -/
def RUN_DURATION : Int := 10000000

/-- Light hysteresis block (lines 113-117).  The C unsigned-16-bit
`light_level` promotes to `int` in both comparisons, hence the `Int`
coercion. -/
def lightStep (data : SensorData) (thresh : ThresholdData)
    (s : EngineState) : EngineState :=
  if (data.light_level : Int) < thresh.light_intensity then
    { s with light_state := true }
  else if (data.light_level : Int) > thresh.light_intensity + 20 then
    { s with light_state := false }
  else s

/-- Pump activation block (lines 119-124). -/
def pumpActivateStep (data : SensorData) (thresh : ThresholdData)
    (current_time : Int) (s : EngineState) : EngineState :=
  if s.pump_state = false ∧ s.is_cooldown = false then
    if (data.moisture : Int) < thresh.moisture ∧ data.water_level = true then
      { s with pump_state := true, pump_start_time := current_time }
    else s
  else s

/-- Pump run-timer block (lines 126-132). -/
def pumpRunStep (current_time : Int) (s : EngineState) : EngineState :=
  if s.pump_state = true then
    if uElapsed current_time s.pump_start_time ≥ RUN_DURATION then
      { s with pump_state := false, is_cooldown := true,
               cooldown_start_time := current_time }
    else s
  else s

/-- Cooldown-timer block (lines 134-138). -/
def cooldownStep (current_time : Int) (s : EngineState) : EngineState :=
  if s.is_cooldown = true then
    if uElapsed current_time s.cooldown_start_time ≥ PUMP_COOLDOWN then
      { s with is_cooldown := false }
    else s
  else s

/-- `process_sensor_data` (lines 98-139), with `current_time` (the
`esp_timer_get_time()` read at line 111) passed explicitly: the null-data
guard (line 103), the disable branch (lines 105-109), then the four
sequential blocks in source order. -/
def process_sensor_data (data : SensorData) (thresh : ThresholdData)
    (current_time : Int) (s : EngineState) : EngineState :=
  if data.raw_id = 0 then s
  else if thresh.on_off_toggle = 0 then
    { s with pump_state := false, light_state := false }
  else
    cooldownStep current_time
      (pumpRunStep current_time
        (pumpActivateStep data thresh current_time
          (lightStep data thresh s)))

/-- The state at boot: `app_main` starts with both command booleans false
(lines 64-65) and the statics of `process_sensor_data` zero-initialized. -/
def initState : EngineState :=
  { pump_state := false, light_state := false, pump_start_time := 0,
    cooldown_start_time := 0, is_cooldown := false }

/-- States reachable from boot by any sequence of `process_sensor_data`
invocations, with arbitrary sensor data, thresholds and clock readings. -/
inductive Reachable : EngineState → Prop
  | init : Reachable initState
  | step (data : SensorData) (thresh : ThresholdData) (now : Int)
      {s : EngineState} : Reachable s →
      Reachable (process_sensor_data data thresh now s)

/-! ### Frame lemmas: which fields each block leaves untouched -/

@[simp] lemma lightStep_pump_state (d : SensorData) (t : ThresholdData)
    (s : EngineState) : (lightStep d t s).pump_state = s.pump_state := by
  unfold lightStep; split_ifs <;> rfl

@[simp] lemma lightStep_is_cooldown (d : SensorData) (t : ThresholdData)
    (s : EngineState) : (lightStep d t s).is_cooldown = s.is_cooldown := by
  unfold lightStep; split_ifs <;> rfl

@[simp] lemma lightStep_pump_start_time (d : SensorData) (t : ThresholdData)
    (s : EngineState) : (lightStep d t s).pump_start_time = s.pump_start_time := by
  unfold lightStep; split_ifs <;> rfl

@[simp] lemma lightStep_cooldown_start_time (d : SensorData) (t : ThresholdData)
    (s : EngineState) :
    (lightStep d t s).cooldown_start_time = s.cooldown_start_time := by
  unfold lightStep; split_ifs <;> rfl

@[simp] lemma pumpActivateStep_light_state (d : SensorData) (t : ThresholdData)
    (now : Int) (s : EngineState) :
    (pumpActivateStep d t now s).light_state = s.light_state := by
  unfold pumpActivateStep; split_ifs <;> rfl

@[simp] lemma pumpActivateStep_is_cooldown (d : SensorData) (t : ThresholdData)
    (now : Int) (s : EngineState) :
    (pumpActivateStep d t now s).is_cooldown = s.is_cooldown := by
  unfold pumpActivateStep; split_ifs <;> rfl

@[simp] lemma pumpActivateStep_cooldown_start_time (d : SensorData)
    (t : ThresholdData) (now : Int) (s : EngineState) :
    (pumpActivateStep d t now s).cooldown_start_time = s.cooldown_start_time := by
  unfold pumpActivateStep; split_ifs <;> rfl

@[simp] lemma pumpRunStep_light_state (now : Int) (s : EngineState) :
    (pumpRunStep now s).light_state = s.light_state := by
  unfold pumpRunStep; split_ifs <;> rfl

@[simp] lemma pumpRunStep_pump_start_time (now : Int) (s : EngineState) :
    (pumpRunStep now s).pump_start_time = s.pump_start_time := by
  unfold pumpRunStep; split_ifs <;> rfl

@[simp] lemma cooldownStep_pump_state (now : Int) (s : EngineState) :
    (cooldownStep now s).pump_state = s.pump_state := by
  unfold cooldownStep; split_ifs <;> rfl

@[simp] lemma cooldownStep_light_state (now : Int) (s : EngineState) :
    (cooldownStep now s).light_state = s.light_state := by
  unfold cooldownStep; split_ifs <;> rfl

@[simp] lemma cooldownStep_pump_start_time (now : Int) (s : EngineState) :
    (cooldownStep now s).pump_start_time = s.pump_start_time := by
  unfold cooldownStep; split_ifs <;> rfl

@[simp] lemma cooldownStep_cooldown_start_time (now : Int) (s : EngineState) :
    (cooldownStep now s).cooldown_start_time = s.cooldown_start_time := by
  unfold cooldownStep; split_ifs <;> rfl

/-! ### Behaviour lemmas for the pump blocks -/

@[simp] lemma uElapsed_self (now : Int) : uElapsed now now = 0 := by
  simp [uElapsed]

lemma pumpActivateStep_fires {d : SensorData} {t : ThresholdData} {now : Int}
    {s : EngineState} (h : s.pump_state = false) (hc : s.is_cooldown = false)
    (hm : (d.moisture : Int) < t.moisture) (hw : d.water_level = true) :
    pumpActivateStep d t now s =
      { s with pump_state := true, pump_start_time := now } := by
  unfold pumpActivateStep
  rw [if_pos ⟨h, hc⟩, if_pos ⟨hm, hw⟩]

lemma pumpActivateStep_blocked {d : SensorData} {t : ThresholdData} {now : Int}
    {s : EngineState} (h : ¬(s.pump_state = false ∧ s.is_cooldown = false)) :
    pumpActivateStep d t now s = s := by
  unfold pumpActivateStep
  rw [if_neg h]

lemma pumpActivateStep_condFail {d : SensorData} {t : ThresholdData} {now : Int}
    {s : EngineState}
    (h : ¬((d.moisture : Int) < t.moisture ∧ d.water_level = true)) :
    pumpActivateStep d t now s = s := by
  unfold pumpActivateStep
  split_ifs <;> rfl

lemma pumpRunStep_inactive {now : Int} {s : EngineState}
    (h : s.pump_state = false) : pumpRunStep now s = s := by
  unfold pumpRunStep
  rw [if_neg (by simp [h])]

lemma pumpRunStep_keep {now : Int} {s : EngineState}
    (hlt : uElapsed now s.pump_start_time < RUN_DURATION) :
    pumpRunStep now s = s := by
  unfold pumpRunStep
  split_ifs with h1 h2
  · exact absurd h2 (not_le.mpr hlt)
  · rfl
  · rfl

lemma pumpRunStep_expire {now : Int} {s : EngineState}
    (h : s.pump_state = true)
    (hge : uElapsed now s.pump_start_time ≥ RUN_DURATION) :
    pumpRunStep now s =
      { s with pump_state := false, is_cooldown := true,
               cooldown_start_time := now } := by
  unfold pumpRunStep
  rw [if_pos h, if_pos hge]

lemma cooldownStep_off {now : Int} {s : EngineState}
    (h : s.is_cooldown = false) : cooldownStep now s = s := by
  unfold cooldownStep
  rw [if_neg (by simp [h])]

lemma cooldownStep_keep {now : Int} {s : EngineState}
    (hlt : uElapsed now s.cooldown_start_time < PUMP_COOLDOWN) :
    cooldownStep now s = s := by
  unfold cooldownStep
  split_ifs with h1 h2
  · exact absurd h2 (not_le.mpr hlt)
  · rfl
  · rfl

lemma cooldownStep_clear {now : Int} {s : EngineState}
    (h : s.is_cooldown = true)
    (hge : uElapsed now s.cooldown_start_time ≥ PUMP_COOLDOWN) :
    cooldownStep now s = { s with is_cooldown := false } := by
  unfold cooldownStep
  rw [if_pos h, if_pos hge]

/-! ### Whole-invocation helper lemmas -/

/-- With live data and enabled thresholds, the engine is the composition
of the four blocks. -/
lemma process_live {d : SensorData} {t : ThresholdData} {now : Int}
    {s : EngineState} (h : d.raw_id ≠ 0) (ht : t.on_off_toggle ≠ 0) :
    process_sensor_data d t now s =
      cooldownStep now (pumpRunStep now
        (pumpActivateStep d t now (lightStep d t s))) := by
  unfold process_sensor_data
  rw [if_neg h, if_neg ht]

/-- A pump that satisfies all four activation conditions ends the
invocation freshly activated: the run-timer sees zero elapsed time and
the cooldown block is idle. -/
lemma process_activates {d : SensorData} {t : ThresholdData} {now : Int}
    {s : EngineState} (h : d.raw_id ≠ 0) (ht : t.on_off_toggle ≠ 0)
    (hp : s.pump_state = false) (hc : s.is_cooldown = false)
    (hm : (d.moisture : Int) < t.moisture) (hw : d.water_level = true) :
    process_sensor_data d t now s =
      { lightStep d t s with pump_state := true, pump_start_time := now } := by
  rw [process_live h ht,
    pumpActivateStep_fires (by simp [hp]) (by simp [hc]) hm hw,
    pumpRunStep_keep (by simp [RUN_DURATION]),
    cooldownStep_off (by simp [hc])]

/-- An inactive pump that is cooling down or misses a sensor condition
stays off for the whole invocation. -/
lemma process_pump_stays_off {d : SensorData} {t : ThresholdData} {now : Int}
    {s : EngineState} (h : d.raw_id ≠ 0) (ht : t.on_off_toggle ≠ 0)
    (hp : s.pump_state = false)
    (hno : s.is_cooldown = true ∨
      ¬((d.moisture : Int) < t.moisture ∧ d.water_level = true)) :
    (process_sensor_data d t now s).pump_state = false := by
  rw [process_live h ht]
  have hact : pumpActivateStep d t now (lightStep d t s) = lightStep d t s := by
    rcases hno with hcool | hcond
    · exact pumpActivateStep_blocked (by simp [hcool])
    · exact pumpActivateStep_condFail hcond
  rw [hact, pumpRunStep_inactive (by simp [hp])]
  simp [hp]

/-! ### Concrete data used by witnesses and counterexamples -/

/-- A boot-time snapshot: `raw_id = 0` (no frame decoded yet). -/
def sensorNull : SensorData :=
  { temperature := 0, light_level := 0, humidity := 0, moisture := 0,
    water_level := false, raw_id := 0 }

/-- A live snapshot (CAN identifier 0x101) that is dark, dry and has
water available. -/
def sensorLive : SensorData :=
  { temperature := 230, light_level := 50, humidity := 40, moisture := 50,
    water_level := true, raw_id := 257 }

/-- The startup threshold defaults of `app_main` (lines 58-63). -/
def threshDefault : ThresholdData :=
  { light_intensity := 90, moisture := 100, temperature := 25,
    on_off_toggle := 1 }

/-- The startup thresholds with the on/off toggle cleared. -/
def threshDisabled : ThresholdData :=
  { light_intensity := 90, moisture := 100, temperature := 25,
    on_off_toggle := 0 }

/-- A state in which the pump is running (activated at time 0). -/
def pumpOnState : EngineState :=
  { pump_state := true, light_state := true, pump_start_time := 0,
    cooldown_start_time := 0, is_cooldown := false }

/-! ### Claims C5, C6, C7 -/

/-- Claim C5: a snapshot with `source_id == 0` leaves the pump state, the
light state and the internal timer/cooldown state completely unchanged,
whatever the thresholds and prior state. -/
theorem null_sensor_unchanged (d : SensorData) (t : ThresholdData)
    (now : Int) (s : EngineState) (h : d.raw_id = 0) :
    process_sensor_data d t now s = s := by
  simp [process_sensor_data, h]

theorem null_sensor_unchanged_witness :
    sensorNull.raw_id = 0 ∧
      process_sensor_data sensorNull threshDefault 5 pumpOnState =
        pumpOnState :=
  ⟨rfl, null_sensor_unchanged sensorNull threshDefault 5 pumpOnState rfl⟩

/-- Claim C6 as stated is false: with disabled thresholds but a null
snapshot (`source_id == 0`), the engine returns at the null-data guard
before the disable branch, so a previously true pump/light survives. -/
theorem disabled_outputs_counterexample :
    ¬((process_sensor_data sensorNull threshDisabled 0 pumpOnState).pump_state
        = false ∧
      (process_sensor_data sensorNull threshDisabled 0 pumpOnState).light_state
        = false) := by
  decide

/-- Claim C6 (amended): for thresholds with `enabled == false`, after an
invocation whose snapshot has `source_id != 0`, the output pump state and
light state are both false, regardless of sensor values and prior
state. -/
theorem disabled_outputs_off (d : SensorData) (t : ThresholdData)
    (now : Int) (s : EngineState) (h : d.raw_id ≠ 0)
    (ht : t.on_off_toggle = 0) :
    (process_sensor_data d t now s).pump_state = false ∧
      (process_sensor_data d t now s).light_state = false := by
  simp [process_sensor_data, h, ht]

theorem disabled_outputs_off_witness :
    sensorLive.raw_id ≠ 0 ∧ threshDisabled.on_off_toggle = 0 ∧
      ((process_sensor_data sensorLive threshDisabled 0 pumpOnState).pump_state
          = false ∧
        (process_sensor_data sensorLive threshDisabled 0 pumpOnState).light_state
          = false) :=
  ⟨by decide, rfl,
    disabled_outputs_off sensorLive threshDisabled 0 pumpOnState
      (by decide) rfl⟩

/-- Claim C7: with live data and disabled thresholds, the invocation
forces pump and light to false and changes nothing else: `cooling_down`
and both timestamps are preserved, and no other block runs. -/
theorem disabled_frame (d : SensorData) (t : ThresholdData) (now : Int)
    (s : EngineState) (h : d.raw_id ≠ 0) (ht : t.on_off_toggle = 0) :
    process_sensor_data d t now s =
      { s with pump_state := false, light_state := false } := by
  simp [process_sensor_data, h, ht]

theorem disabled_frame_witness :
    sensorLive.raw_id ≠ 0 ∧ threshDisabled.on_off_toggle = 0 ∧
      process_sensor_data sensorLive threshDisabled 7 pumpOnState =
        { pumpOnState with pump_state := false, light_state := false } :=
  ⟨by decide, rfl,
    disabled_frame sensorLive threshDisabled 7 pumpOnState (by decide) rfl⟩

/-- The disable branch (lines 105-109) in one equation. -/
lemma process_disabled {d : SensorData} {t : ThresholdData} {now : Int}
    {s : EngineState} (h : d.raw_id ≠ 0) (ht : t.on_off_toggle = 0) :
    process_sensor_data d t now s =
      { s with pump_state := false, light_state := false } := by
  simp [process_sensor_data, h, ht]

/-- With live data and enabled thresholds the final light state is the
one computed by the hysteresis block; the pump blocks never touch it. -/
lemma process_light_eq {d : SensorData} {t : ThresholdData} {now : Int}
    {s : EngineState} (h : d.raw_id ≠ 0) (ht : t.on_off_toggle ≠ 0) :
    (process_sensor_data d t now s).light_state =
      (lightStep d t s).light_state := by
  rw [process_live h ht]
  simp

/-! ### Claims C1, C3, C10 -/

/-- Claim C1: with live data and enabled thresholds, the pump transitions
from inactive to active exactly when all four conditions hold (pump off,
not cooling down, moisture below threshold, water present), and an
activation records the current time as the activation timestamp. -/
theorem pump_activation_iff (d : SensorData) (t : ThresholdData)
    (now : Int) (s : EngineState) (h : d.raw_id ≠ 0)
    (ht : t.on_off_toggle ≠ 0) :
    (((process_sensor_data d t now s).pump_state = true ∧
        s.pump_state = false) ↔
      (s.pump_state = false ∧ s.is_cooldown = false ∧
        (d.moisture : Int) < t.moisture ∧ d.water_level = true)) ∧
    (s.pump_state = false → s.is_cooldown = false →
      (d.moisture : Int) < t.moisture → d.water_level = true →
      (process_sensor_data d t now s).pump_state = true ∧
        (process_sensor_data d t now s).pump_start_time = now) := by
  constructor
  · constructor
    · rintro ⟨hres, hp⟩
      by_cases hcond : (d.moisture : Int) < t.moisture ∧ d.water_level = true
      · by_cases hcool : s.is_cooldown = true
        · rw [process_pump_stays_off h ht hp (Or.inl hcool)] at hres
          exact absurd hres (by simp)
        · simp only [Bool.not_eq_true] at hcool
          exact ⟨hp, hcool, hcond.1, hcond.2⟩
      · rw [process_pump_stays_off h ht hp (Or.inr hcond)] at hres
        exact absurd hres (by simp)
    · rintro ⟨hp, hc, hm, hw⟩
      rw [process_activates h ht hp hc hm hw]
      exact ⟨rfl, hp⟩
  · intro hp hc hm hw
    rw [process_activates h ht hp hc hm hw]
    exact ⟨rfl, rfl⟩

theorem pump_activation_iff_witness :
    sensorLive.raw_id ≠ 0 ∧ threshDefault.on_off_toggle ≠ 0 ∧
      ((((process_sensor_data sensorLive threshDefault 3 initState).pump_state
            = true ∧ initState.pump_state = false) ↔
        (initState.pump_state = false ∧ initState.is_cooldown = false ∧
          (sensorLive.moisture : Int) < threshDefault.moisture ∧
          sensorLive.water_level = true)) ∧
      (initState.pump_state = false → initState.is_cooldown = false →
        (sensorLive.moisture : Int) < threshDefault.moisture →
        sensorLive.water_level = true →
        (process_sensor_data sensorLive threshDefault 3 initState).pump_state
            = true ∧
          (process_sensor_data sensorLive threshDefault 3 initState).pump_start_time
            = 3)) :=
  ⟨by decide, by decide,
    pump_activation_iff sensorLive threshDefault 3 initState
      (by decide) (by decide)⟩

/-- Claim C3: with live data and enabled thresholds, light turns on for
`light_level` strictly below the threshold, turns off strictly above
threshold + 20, and keeps its prior value on the closed dead band in
between. -/
theorem light_hysteresis (d : SensorData) (t : ThresholdData) (now : Int)
    (s : EngineState) (h : d.raw_id ≠ 0) (ht : t.on_off_toggle ≠ 0) :
    ((d.light_level : Int) < t.light_intensity →
      (process_sensor_data d t now s).light_state = true) ∧
    ((d.light_level : Int) > t.light_intensity + 20 →
      (process_sensor_data d t now s).light_state = false) ∧
    (t.light_intensity ≤ (d.light_level : Int) ∧
      (d.light_level : Int) ≤ t.light_intensity + 20 →
      (process_sensor_data d t now s).light_state = s.light_state) := by
  refine ⟨fun hlt => ?_, fun hgt => ?_, fun hband => ?_⟩ <;>
    rw [process_light_eq h ht] <;> unfold lightStep
  · rw [if_pos hlt]
  · rw [if_neg (by omega), if_pos hgt]
  · rw [if_neg (by omega), if_neg (by omega)]

theorem light_hysteresis_witness :
    sensorLive.raw_id ≠ 0 ∧ threshDefault.on_off_toggle ≠ 0 ∧
      (((sensorLive.light_level : Int) < threshDefault.light_intensity →
        (process_sensor_data sensorLive threshDefault 3 initState).light_state
          = true) ∧
      ((sensorLive.light_level : Int) > threshDefault.light_intensity + 20 →
        (process_sensor_data sensorLive threshDefault 3 initState).light_state
          = false) ∧
      (threshDefault.light_intensity ≤ (sensorLive.light_level : Int) ∧
        (sensorLive.light_level : Int) ≤ threshDefault.light_intensity + 20 →
        (process_sensor_data sensorLive threshDefault 3 initState).light_state
          = initState.light_state)) :=
  ⟨by decide, by decide,
    light_hysteresis sensorLive threshDefault 3 initState
      (by decide) (by decide)⟩

/-- Claim C10: a disable invocation that lands mid-run aborts the run
without entering cooldown, so a following enabled invocation with the
moisture and water conditions satisfied reactivates the pump at once —
the mandatory cooldown is skipped entirely. -/
theorem disable_skips_cooldown (d0 d1 : SensorData)
    (t0 t1 : ThresholdData) (now0 now1 : Int) (s : EngineState)
    (h0 : d0.raw_id ≠ 0) (ht0 : t0.on_off_toggle = 0)
    (hs : s.pump_state = true) (hc : s.is_cooldown = false)
    (h1 : d1.raw_id ≠ 0) (ht1 : t1.on_off_toggle ≠ 0)
    (hm : (d1.moisture : Int) < t1.moisture) (hw : d1.water_level = true) :
    (process_sensor_data d0 t0 now0 s).pump_state = false ∧
    (process_sensor_data d0 t0 now0 s).is_cooldown = false ∧
    (process_sensor_data d1 t1 now1
        (process_sensor_data d0 t0 now0 s)).pump_state = true ∧
    (process_sensor_data d1 t1 now1
        (process_sensor_data d0 t0 now0 s)).pump_start_time = now1 := by
  rw [process_disabled h0 ht0]
  have h2 : process_sensor_data d1 t1 now1
      { s with pump_state := false, light_state := false } =
      { lightStep d1 t1 { s with pump_state := false, light_state := false }
          with pump_state := true, pump_start_time := now1 } :=
    process_activates h1 ht1 rfl hc hm hw
  rw [h2]
  exact ⟨rfl, hc, rfl, rfl⟩

theorem disable_skips_cooldown_witness :
    sensorLive.raw_id ≠ 0 ∧ threshDisabled.on_off_toggle = 0 ∧
      pumpOnState.pump_state = true ∧ pumpOnState.is_cooldown = false ∧
      (sensorLive.moisture : Int) < threshDefault.moisture ∧
      sensorLive.water_level = true ∧
      ((process_sensor_data sensorLive threshDisabled 2 pumpOnState).pump_state
          = false ∧
        (process_sensor_data sensorLive threshDisabled 2 pumpOnState).is_cooldown
          = false ∧
        (process_sensor_data sensorLive threshDefault 5
            (process_sensor_data sensorLive threshDisabled 2
              pumpOnState)).pump_state = true ∧
        (process_sensor_data sensorLive threshDefault 5
            (process_sensor_data sensorLive threshDisabled 2
              pumpOnState)).pump_start_time = 5) :=
  ⟨by decide, rfl, rfl, rfl, by decide, rfl,
    disable_skips_cooldown sensorLive sensorLive threshDisabled threshDefault
      2 5 pumpOnState (by decide) rfl rfl rfl (by decide) (by decide)
      (by decide) rfl⟩

/-! ### Claims C2 and C4 -/

/-- Claim C2: with live data and enabled thresholds, (i) an active pump
with less than the run duration elapsed stays active with its activation
timestamp intact; (ii) an active pump with at least the run duration
elapsed is switched off into cooldown, the cooldown timestamp set to the
current time; (iii) a cooling-down pump whose cooldown duration has
elapsed leaves cooldown and stays off, becoming eligible again; (iv) a
pump activated in this very invocation reads zero elapsed time, so it is
never expired in the same pass. -/
theorem pump_run_cooldown_lifecycle (d : SensorData) (t : ThresholdData)
    (now : Int) (s : EngineState) (h : d.raw_id ≠ 0)
    (ht : t.on_off_toggle ≠ 0) :
    (s.pump_state = true → uElapsed now s.pump_start_time < RUN_DURATION →
      (process_sensor_data d t now s).pump_state = true ∧
        (process_sensor_data d t now s).pump_start_time =
          s.pump_start_time) ∧
    (s.pump_state = true → uElapsed now s.pump_start_time ≥ RUN_DURATION →
      (process_sensor_data d t now s).pump_state = false ∧
        (process_sensor_data d t now s).is_cooldown = true ∧
        (process_sensor_data d t now s).cooldown_start_time = now) ∧
    (s.pump_state = false → s.is_cooldown = true →
      uElapsed now s.cooldown_start_time ≥ PUMP_COOLDOWN →
      (process_sensor_data d t now s).pump_state = false ∧
        (process_sensor_data d t now s).is_cooldown = false) ∧
    (s.pump_state = false → s.is_cooldown = false →
      (d.moisture : Int) < t.moisture → d.water_level = true →
      (process_sensor_data d t now s).pump_state = true) := by
  refine ⟨fun hp hlt => ?_, fun hp hge => ?_, fun hp hcd hge => ?_,
    fun hp hcool hm hw => ?_⟩
  · rw [process_live h ht, pumpActivateStep_blocked (by simp [hp]),
      pumpRunStep_keep (by simpa using hlt)]
    exact ⟨by simp [hp], by simp⟩
  · rw [process_live h ht, pumpActivateStep_blocked (by simp [hp]),
      pumpRunStep_expire (by simp [hp]) (by simpa using hge),
      cooldownStep_keep (by simp [PUMP_COOLDOWN])]
    exact ⟨rfl, rfl, rfl⟩
  · rw [process_live h ht, pumpActivateStep_blocked (by simp [hcd]),
      pumpRunStep_inactive (by simp [hp]),
      cooldownStep_clear (by simp [hcd]) (by simpa using hge)]
    exact ⟨by simp [hp], rfl⟩
  · rw [process_activates h ht hp hcool hm hw]

theorem pump_run_cooldown_lifecycle_witness :
    sensorLive.raw_id ≠ 0 ∧ threshDefault.on_off_toggle ≠ 0 ∧
      ((pumpOnState.pump_state = true →
        uElapsed 4 pumpOnState.pump_start_time < RUN_DURATION →
        (process_sensor_data sensorLive threshDefault 4
            pumpOnState).pump_state = true ∧
          (process_sensor_data sensorLive threshDefault 4
              pumpOnState).pump_start_time = pumpOnState.pump_start_time) ∧
      (pumpOnState.pump_state = true →
        uElapsed 4 pumpOnState.pump_start_time ≥ RUN_DURATION →
        (process_sensor_data sensorLive threshDefault 4
            pumpOnState).pump_state = false ∧
          (process_sensor_data sensorLive threshDefault 4
              pumpOnState).is_cooldown = true ∧
          (process_sensor_data sensorLive threshDefault 4
              pumpOnState).cooldown_start_time = 4) ∧
      (pumpOnState.pump_state = false → pumpOnState.is_cooldown = true →
        uElapsed 4 pumpOnState.cooldown_start_time ≥ PUMP_COOLDOWN →
        (process_sensor_data sensorLive threshDefault 4
            pumpOnState).pump_state = false ∧
          (process_sensor_data sensorLive threshDefault 4
              pumpOnState).is_cooldown = false) ∧
      (pumpOnState.pump_state = false → pumpOnState.is_cooldown = false →
        (sensorLive.moisture : Int) < threshDefault.moisture →
        sensorLive.water_level = true →
        (process_sensor_data sensorLive threshDefault 4
            pumpOnState).pump_state = true)) :=
  ⟨by decide, by decide,
    pump_run_cooldown_lifecycle sensorLive threshDefault 4 pumpOnState
      (by decide) (by decide)⟩

/-- The activation block preserves pump/cooldown mutual exclusion: a new
activation only happens when `is_cooldown` is already false. -/
lemma pumpActivateStep_mutex {d : SensorData} {t : ThresholdData}
    {now : Int} {s : EngineState}
    (hs : ¬(s.pump_state = true ∧ s.is_cooldown = true)) :
    ¬((pumpActivateStep d t now s).pump_state = true ∧
      (pumpActivateStep d t now s).is_cooldown = true) := by
  unfold pumpActivateStep
  split_ifs with h1 h2
  · simp [h1.2]
  · exact hs
  · exact hs

/-- The run-timer block preserves pump/cooldown mutual exclusion: on
expiry it clears `pump_state` while setting `is_cooldown`. -/
lemma pumpRunStep_mutex {now : Int} {s : EngineState}
    (hs : ¬(s.pump_state = true ∧ s.is_cooldown = true)) :
    ¬((pumpRunStep now s).pump_state = true ∧
      (pumpRunStep now s).is_cooldown = true) := by
  unfold pumpRunStep
  split_ifs with h1 h2
  · simp
  · exact hs
  · exact hs

/-- The cooldown block preserves pump/cooldown mutual exclusion: it only
ever clears `is_cooldown`. -/
lemma cooldownStep_mutex {now : Int} {s : EngineState}
    (hs : ¬(s.pump_state = true ∧ s.is_cooldown = true)) :
    ¬((cooldownStep now s).pump_state = true ∧
      (cooldownStep now s).is_cooldown = true) := by
  unfold cooldownStep
  split_ifs with h1 h2
  · simp
  · exact hs
  · exact hs

/-- One invocation preserves the mutual exclusion of `pump_state` and
`is_cooldown`, whatever the inputs and clock reading. -/
lemma mutex_step (d : SensorData) (t : ThresholdData) (now : Int)
    {s : EngineState}
    (hs : ¬(s.pump_state = true ∧ s.is_cooldown = true)) :
    ¬((process_sensor_data d t now s).pump_state = true ∧
      (process_sensor_data d t now s).is_cooldown = true) := by
  by_cases h0 : d.raw_id = 0
  · simpa [process_sensor_data, h0] using hs
  by_cases htg : t.on_off_toggle = 0
  · rw [process_disabled h0 htg]
    simp
  rw [process_live h0 htg]
  exact cooldownStep_mutex (pumpRunStep_mutex
    (pumpActivateStep_mutex (by simpa using hs)))

/-- Claim C4: in every state reachable from boot by any sequence of
invocations, the pump is never simultaneously active and cooling down. -/
theorem pump_cooldown_mutex (s : EngineState) (hr : Reachable s) :
    ¬(s.pump_state = true ∧ s.is_cooldown = true) := by
  induction hr with
  | init => simp [initState]
  | step d t now hr ih => exact mutex_step d t now ih

theorem pump_cooldown_mutex_witness :
    ¬(initState.pump_state = true ∧ initState.is_cooldown = true) :=
  pump_cooldown_mutex initState Reachable.init

/-! ### Actuator Edge-Trigger (`update_hardware_actuators`, lines 141-156) -/

/-- The two actuator output channels (`PUMP_PIN`, `LIGHT_PIN`). -/
inductive Channel where
  | pump
  | light
  deriving Repr, DecidableEq

/-- One `gpio_set_level` call together with the transition log line the
same guarded block prints (lines 146-147, 152-153). -/
structure HardwareWrite where
  channel : Channel
  level : Bool
  deriving Repr, DecidableEq

/-- The function-static variables `last_pump_state`, `last_light_state`
(lines 142-143), zero-initialized at boot. -/
structure ActuatorState where
  last_pump_state : Bool
  last_light_state : Bool
  deriving Repr, DecidableEq

/-- `update_hardware_actuators`: each channel's block fires only when the
commanded value differs from the stored previous value, emitting the
write and updating the stored value; the blocks run pump first, light
second, as in the source. -/
def update_hardware_actuators (pump_state light_state : Bool)
    (a : ActuatorState) : ActuatorState × List HardwareWrite :=
  let a1 := if pump_state ≠ a.last_pump_state
    then { a with last_pump_state := pump_state } else a
  let w1 : List HardwareWrite := if pump_state ≠ a.last_pump_state
    then [{ channel := Channel.pump, level := pump_state }] else []
  let a2 := if light_state ≠ a1.last_light_state
    then { a1 with last_light_state := light_state } else a1
  let w2 : List HardwareWrite := if light_state ≠ a1.last_light_state
    then [{ channel := Channel.light, level := light_state }] else []
  (a2, w1 ++ w2)

/-- Run the edge-trigger over a whole sequence of per-cycle commands,
collecting every hardware write it emits. -/
def runActuators (a : ActuatorState) :
    List (Bool × Bool) → ActuatorState × List HardwareWrite
  | [] => (a, [])
  | c :: cs =>
    let step := update_hardware_actuators c.1 c.2 a
    let rest := runActuators step.1 cs
    (rest.1, step.2 ++ rest.2)

/-- The writes addressed to one channel. -/
def writesFor (c : Channel) (ws : List HardwareWrite) : List HardwareWrite :=
  ws.filter (fun w => w.channel == c)

/-- The number of value changes in a command sequence, measured against a
starting value: one per position whose command differs from the value in
force before it. -/
def countChanges (prev : Bool) : List Bool → Nat
  | [] => 0
  | b :: bs => (if b ≠ prev then 1 else 0) + countChanges b bs

lemma update_hardware_actuators_fst (p l : Bool) (a : ActuatorState) :
    (update_hardware_actuators p l a).1 =
      { last_pump_state := p, last_light_state := l } := by
  cases a with
  | mk lp ll =>
    simp only [update_hardware_actuators]
    split_ifs <;> simp_all

lemma update_hardware_actuators_snd (p l : Bool) (a : ActuatorState) :
    (update_hardware_actuators p l a).2 =
      (if p ≠ a.last_pump_state
        then [{ channel := Channel.pump, level := p }] else []) ++
      (if l ≠ a.last_light_state
        then [{ channel := Channel.light, level := l }] else []) := by
  cases a with
  | mk lp ll =>
    simp only [update_hardware_actuators]
    split_ifs <;> simp_all

lemma writesFor_append (c : Channel) (xs ys : List HardwareWrite) :
    writesFor c (xs ++ ys) = writesFor c xs ++ writesFor c ys := by
  simp [writesFor]

lemma runActuators_pump_count (cmds : List (Bool × Bool))
    (a : ActuatorState) :
    (writesFor Channel.pump (runActuators a cmds).2).length =
      countChanges a.last_pump_state (cmds.map Prod.fst) := by
  induction cmds generalizing a with
  | nil => simp [runActuators, writesFor, countChanges]
  | cons c cs ih =>
    simp only [runActuators, List.map_cons, countChanges]
    rw [update_hardware_actuators_snd, update_hardware_actuators_fst]
    simp only [writesFor_append, List.length_append]
    rw [ih]
    split_ifs <;> simp [writesFor]

lemma runActuators_light_count (cmds : List (Bool × Bool))
    (a : ActuatorState) :
    (writesFor Channel.light (runActuators a cmds).2).length =
      countChanges a.last_light_state (cmds.map Prod.snd) := by
  induction cmds generalizing a with
  | nil => simp [runActuators, writesFor, countChanges]
  | cons c cs ih =>
    simp only [runActuators, List.map_cons, countChanges]
    rw [update_hardware_actuators_snd, update_hardware_actuators_fst]
    simp only [writesFor_append, List.length_append]
    rw [ih]
    split_ifs <;> simp [writesFor]

/-- Claim C8: per invocation and per channel, the edge-trigger emits the
write (with its log line) exactly when the commanded value differs from
the stored previous value, and afterwards the stored value equals the
command; over any sequence of invocations each channel gets exactly one
write per state change and none for repeated values. -/
theorem actuator_edge_trigger :
    (∀ (p l : Bool) (a : ActuatorState),
      writesFor Channel.pump (update_hardware_actuators p l a).2 =
        (if p ≠ a.last_pump_state
          then [{ channel := Channel.pump, level := p }] else []) ∧
      writesFor Channel.light (update_hardware_actuators p l a).2 =
        (if l ≠ a.last_light_state
          then [{ channel := Channel.light, level := l }] else []) ∧
      (update_hardware_actuators p l a).1.last_pump_state = p ∧
      (update_hardware_actuators p l a).1.last_light_state = l) ∧
    (∀ (a : ActuatorState) (cmds : List (Bool × Bool)),
      (writesFor Channel.pump (runActuators a cmds).2).length =
        countChanges a.last_pump_state (cmds.map Prod.fst) ∧
      (writesFor Channel.light (runActuators a cmds).2).length =
        countChanges a.last_light_state (cmds.map Prod.snd)) := by
  constructor
  · intro p l a
    refine ⟨?_, ?_, ?_, ?_⟩
    · rw [update_hardware_actuators_snd]
      simp only [writesFor, List.filter_append]
      split_ifs <;> simp [writesFor]
    · rw [update_hardware_actuators_snd]
      simp only [writesFor, List.filter_append]
      split_ifs <;> simp [writesFor]
    · rw [update_hardware_actuators_fst]
    · rw [update_hardware_actuators_fst]
  · intro a cmds
    exact ⟨runActuators_pump_count cmds a, runActuators_light_count cmds a⟩

/-! ### Threshold Refresh Gate (`pull_adafruit_thresholds`, lines 288-351)

The HTTP collaborator is abstracted to its outcome at the boundary the C
code consumes: the connection attempt may fail (line 344), the body may
be empty (`read_len ≤ 0`, line 315), or each of the four feeds may or
may not be located and parsed in the body (lines 316-339). -/

/-- `REFRESH_INTERVAL`: the `10000000ULL` literal at line 292. -/
def REFRESH_INTERVAL : Int := 10000000

/-- The per-feed parse results of a successful read: `none` when the
feed's `last_value` was not found in the body.  The toggle parses to
true exactly when its text starts with `ON` or `1` (lines 334-338). -/
structure FetchedFields where
  light_intensity : Option Int
  moisture : Option Int
  temperature : Option Int
  on_off_toggle : Option Bool
  deriving Repr, DecidableEq

/-- Outcome of the HTTP exchange. -/
inductive FetchOutcome where
  | connError
  | emptyResponse
  | ok (fields : FetchedFields)
  deriving Repr, DecidableEq

/-- The merge of lines 316-339: each successfully parsed field overwrites
the stored threshold, the rest keep their prior values. -/
def mergeThresholds (t : ThresholdData) (f : FetchedFields) : ThresholdData :=
  { light_intensity := f.light_intensity.getD t.light_intensity,
    moisture := f.moisture.getD t.moisture,
    temperature := f.temperature.getD t.temperature,
    on_off_toggle := match f.on_off_toggle with
      | none => t.on_off_toggle
      | some b => if b then 1 else 0 }

/-- `pull_adafruit_thresholds` with the static `last_pull_time` threaded
explicitly; returns its new value with the new thresholds.
`current_time` is the `esp_timer_get_time()` read at line 290 and
`end_time` the one at line 350 (taken after the HTTP exchange). -/
def pull_adafruit_thresholds (outcome : FetchOutcome)
    (current_time end_time : Int) (last_pull_time : Int)
    (thresh : ThresholdData) : Int × ThresholdData :=
  if last_pull_time ≠ 0 ∧
      uElapsed current_time last_pull_time < REFRESH_INTERVAL then
    (last_pull_time, thresh)
  else
    match outcome with
    | FetchOutcome.connError => (end_time, thresh)
    | FetchOutcome.emptyResponse => (end_time, thresh)
    | FetchOutcome.ok fields => (end_time, mergeThresholds thresh fields)

/-- Claim C9: within the 10-second window (and not on the very first
call) the gate returns with thresholds and timestamp unchanged;
otherwise the timestamp is refreshed even when the fetch fails, a failed
fetch (connection error or empty body) modifies no threshold field, and
a successful fetch leaves every absent field at its prior value. -/
theorem threshold_refresh_gate (outcome : FetchOutcome)
    (now fin last : Int) (th : ThresholdData) :
    (last ≠ 0 → uElapsed now last < REFRESH_INTERVAL →
      pull_adafruit_thresholds outcome now fin last th = (last, th)) ∧
    (¬(last ≠ 0 ∧ uElapsed now last < REFRESH_INTERVAL) →
      (pull_adafruit_thresholds outcome now fin last th).1 = fin ∧
      ((outcome = FetchOutcome.connError ∨
          outcome = FetchOutcome.emptyResponse) →
        (pull_adafruit_thresholds outcome now fin last th).2 = th) ∧
      (∀ fields, outcome = FetchOutcome.ok fields →
        (fields.light_intensity = none →
          (pull_adafruit_thresholds outcome now fin last th).2.light_intensity
            = th.light_intensity) ∧
        (fields.moisture = none →
          (pull_adafruit_thresholds outcome now fin last th).2.moisture
            = th.moisture) ∧
        (fields.temperature = none →
          (pull_adafruit_thresholds outcome now fin last th).2.temperature
            = th.temperature) ∧
        (fields.on_off_toggle = none →
          (pull_adafruit_thresholds outcome now fin last th).2.on_off_toggle
            = th.on_off_toggle))) := by
  constructor
  · intro hlast hlt
    unfold pull_adafruit_thresholds
    rw [if_pos ⟨hlast, hlt⟩]
  · intro hskip
    unfold pull_adafruit_thresholds
    rw [if_neg hskip]
    refine ⟨?_, ?_, ?_⟩
    · cases outcome <;> rfl
    · rintro (rfl | rfl) <;> rfl
    · rintro fields rfl
      refine ⟨fun hn => ?_, fun hn => ?_, fun hn => ?_, fun hn => ?_⟩ <;>
        simp [mergeThresholds, hn]

theorem threshold_refresh_gate_witness :
    ((12345 : Int) ≠ 0 → uElapsed 12350 12345 < REFRESH_INTERVAL →
      pull_adafruit_thresholds
          (FetchOutcome.ok
            { light_intensity := some 80, moisture := none,
              temperature := none, on_off_toggle := none })
          12350 99 12345 threshDefault = (12345, threshDefault)) ∧
    (¬((12345 : Int) ≠ 0 ∧ uElapsed 12350 12345 < REFRESH_INTERVAL) →
      (pull_adafruit_thresholds
          (FetchOutcome.ok
            { light_intensity := some 80, moisture := none,
              temperature := none, on_off_toggle := none })
          12350 99 12345 threshDefault).1 = 99 ∧
      ((FetchOutcome.ok
            { light_intensity := some 80, moisture := none,
              temperature := none, on_off_toggle := none } =
          FetchOutcome.connError ∨
        FetchOutcome.ok
            { light_intensity := some 80, moisture := none,
              temperature := none, on_off_toggle := none } =
          FetchOutcome.emptyResponse) →
        (pull_adafruit_thresholds
            (FetchOutcome.ok
              { light_intensity := some 80, moisture := none,
                temperature := none, on_off_toggle := none })
            12350 99 12345 threshDefault).2 = threshDefault) ∧
      (∀ fields,
        FetchOutcome.ok
            { light_intensity := some 80, moisture := none,
              temperature := none, on_off_toggle := none } =
          FetchOutcome.ok fields →
        (fields.light_intensity = none →
          (pull_adafruit_thresholds
              (FetchOutcome.ok
                { light_intensity := some 80, moisture := none,
                  temperature := none, on_off_toggle := none })
              12350 99 12345 threshDefault).2.light_intensity =
            threshDefault.light_intensity) ∧
        (fields.moisture = none →
          (pull_adafruit_thresholds
              (FetchOutcome.ok
                { light_intensity := some 80, moisture := none,
                  temperature := none, on_off_toggle := none })
              12350 99 12345 threshDefault).2.moisture =
            threshDefault.moisture) ∧
        (fields.temperature = none →
          (pull_adafruit_thresholds
              (FetchOutcome.ok
                { light_intensity := some 80, moisture := none,
                  temperature := none, on_off_toggle := none })
              12350 99 12345 threshDefault).2.temperature =
            threshDefault.temperature) ∧
        (fields.on_off_toggle = none →
          (pull_adafruit_thresholds
              (FetchOutcome.ok
                { light_intensity := some 80, moisture := none,
                  temperature := none, on_off_toggle := none })
              12350 99 12345 threshDefault).2.on_off_toggle =
            threshDefault.on_off_toggle))) :=
  threshold_refresh_gate
    (FetchOutcome.ok
      { light_intensity := some 80, moisture := none,
        temperature := none, on_off_toggle := none })
    12350 99 12345 threshDefault

end PlantMonitor
